import Mathlib

/-!
Shallow embedding of the yum08/nocho scraping scripts
(`apify_telegram_scraper.py`, `apify_x_scraper.py`, `apify_linkedin_scraper.py`,
`unified_scraper.py`, `scrape_telegram.py`) and proofs about the frozen claims.

Python dictionaries with loosely-typed values are modelled by `PyVal` / `PyDict`;
Python truthiness by `pyTruthy`; the `a or b` idiom by `pyOr`; `dict.get` by
`pyGet` / `pyGetD`.  Fallible Python code (attribute errors on duck-typed
values, `str.join` over non-strings, list indexing) is modelled with `Except`.
-/

/-- Model of a loosely-typed Python/JSON value as it appears in provider payloads. -/
inductive PyVal where
  | none
  | bool (b : Bool)
  | int (n : Int)
  | str (s : String)
  | list (xs : List PyVal)
  | dict (kvs : List (String × PyVal))

/-- A Python dict with string keys, as used for raw provider records. -/
abbrev PyDict := List (String × PyVal)

/-- Python truthiness: `bool(v)`. -/
def pyTruthy : PyVal → Bool
  | .none => false
  | .bool b => b
  | .int n => n != 0
  | .str s => s != ""
  | .list xs => !xs.isEmpty
  | .dict kvs => !kvs.isEmpty

/-- Python `a or b`: the left value if truthy, else the right value. -/
def pyOr (a b : PyVal) : PyVal := if pyTruthy a then a else b

/-- Python `d.get(k)`: the stored value, or `None` when the key is absent. -/
def pyGet (d : PyDict) (k : String) : PyVal := (d.lookup k).getD PyVal.none

/-- Python `d.get(k, dflt)`. -/
def pyGetD (d : PyDict) (k : String) (dflt : PyVal) : PyVal := (d.lookup k).getD dflt

mutual

/-- Python `repr(v)` (approximated: no escaping inside string literals). -/
def pyRepr : PyVal → String
  | .none => "None"
  | .bool b => if b then "True" else "False"
  | .int n => toString n
  | .str s => "'" ++ s ++ "'"
  | .list xs => "[" ++ String.intercalate ", " (pyReprList xs) ++ "]"
  | .dict kvs => "\x7b" ++ String.intercalate ", " (pyReprDict kvs) ++ "\x7d"

def pyReprList : List PyVal → List String
  | [] => []
  | x :: xs => pyRepr x :: pyReprList xs

def pyReprDict : List (String × PyVal) → List String
  | [] => []
  | (k, v) :: xs => ("'" ++ k ++ "': " ++ pyRepr v) :: pyReprDict xs

end

/-- Python `str(v)`. -/
def pyStr : PyVal → String
  | .str s => s
  | v => pyRepr v

/-!
### String primitives

Python's `strip` / `split` / `startswith` / `lower` / `join` are embedded as
structural functions on the character list of a `String` (the built-in Lean
counterparts use well-founded recursion on byte positions, which the kernel
cannot evaluate).
-/

/-- Python `s.strip()`. -/
def strTrim (s : String) : String :=
  ⟨((s.data.dropWhile Char.isWhitespace).reverse.dropWhile Char.isWhitespace).reverse⟩

/-- Python `s.startswith(p)`. -/
def strStartsWith (s p : String) : Bool := p.data.isPrefixOf s.data

/-- Python `s[n:]` (by code point, as Python indexes by character). -/
def strDrop (s : String) (n : Nat) : String := ⟨s.data.drop n⟩

/-- Python `s.lower()`. -/
def strToLower (s : String) : String := ⟨s.data.map Char.toLower⟩

/-- Python `sep.join(xs)`. -/
def strIntercalate (sep : String) : List String → String
  | [] => ""
  | [x] => x
  | x :: xs => x ++ sep ++ strIntercalate sep xs

/-- Worker for Python `s.split(sep)` (nonempty `sep`), with fuel: the chunk
in progress is extended until `sep` is found as a prefix, which closes it. -/
def splitOnAuxL (sep : List Char) : Nat → List Char → List (List Char)
  | 0, l => [l]
  | fuel + 1, l =>
    match l with
    | [] => [[]]
    | c :: rest =>
      if sep.isPrefixOf (c :: rest) && !sep.isEmpty then
        [] :: splitOnAuxL sep fuel ((c :: rest).drop sep.length)
      else
        match splitOnAuxL sep fuel rest with
        | [] => [[c]]
        | h :: t => (c :: h) :: t

/-- Python `s.split(sep)` for a nonempty separator. -/
def strSplitOn (s sep : String) : List String :=
  (splitOnAuxL sep.data (s.data.length + 1) s.data).map (fun l => ⟨l⟩)

/-!
## Remote job client (`apify_telegram_scraper.py` / `apify_x_scraper.py`)

`get_dataset_items` and `wait_for_run` appear verbatim in both the Telegram and
the X script; they are embedded once here.  The remote dataset is modelled as a
ground-truth list of raw records, and a page request at `offset`/`limit`
returns exactly the corresponding slice.  Poll time is modelled discretely: the
k-th loop iteration sees elapsed time `k * poll_interval` (each `time.sleep`
advances the clock by `poll_interval`; request latency is neglected).  The run
data returned by a status fetch is modelled by its `status` string, which is
all the scripts consult.
-/

namespace ApifyClient

/-- One page request against dataset `ds`: the slice `ds[offset : offset+limit]`. -/
def fetchPage (ds : List α) (offset limit : Nat) : List α := (ds.drop offset).take limit

/-- The `while True` pagination loop of `get_dataset_items`, with explicit fuel.
Returns the accumulated items together with the number of page requests made.
Source:
```
while True:
    resp = apify_request('GET', ..., params=ofset/limit)
    batch = resp.json()
    if not batch: break
    items.extend(batch)
    if len(batch) < limit: break
    offset += limit
```
-/
def get_dataset_items_go (ds : List α) (limit : Nat) :
    Nat → Nat → List α → Nat → List α × Nat
  | 0, _, items, reqs => (items, reqs)
  | fuel + 1, offset, items, reqs =>
    let batch := fetchPage ds offset limit
    if batch.isEmpty then (items, reqs + 1)
    else if batch.length < limit then (items ++ batch, reqs + 1)
    else get_dataset_items_go ds limit fuel (offset + limit) (items ++ batch) (reqs + 1)

/-- `get_dataset_items`: fetch all items of a dataset, paging with the
implementation constant `limit = 1000`.  The second component counts the page
requests issued.  The fuel bound `ds.length + 2` never binds (each recursive
step consumes a full page of 1000 items). -/
def get_dataset_items (ds : List α) : List α × Nat :=
  get_dataset_items_go ds 1000 (ds.length + 2) 0 [] 0

/-- `status in ('SUCCEEDED', 'FAILED', 'ABORTED', 'TIMED-OUT')`. -/
def isTerminal (status : String) : Bool :=
  status == "SUCCEEDED" || status == "FAILED" || status == "ABORTED" || status == "TIMED-OUT"

/-- The polling loop of `wait_for_run` (Telegram/X variant), with explicit fuel.
`statuses k` is the status string the k-th status fetch would observe; `k` also
indexes the poll iteration, whose elapsed time is `k * interval`.  Source:
```
while True:
    elapsed = time.time() - start_time
    if elapsed > timeout:
        print(...); break
    resp = apify_request('GET', f'actor-runs/{run_id}')
    status = resp.json()['data']['status']
    if status in ('SUCCEEDED','FAILED','ABORTED','TIMED-OUT'): return run_data
    time.sleep(poll_interval)
resp = apify_request('GET', f'actor-runs/{run_id}')
return resp.json().get('data', {})
```
On the `break` path one more status fetch happens and its (actual) run data is
returned. -/
def wait_for_run_go (statuses : Nat → String) (timeout interval : Nat) :
    Nat → Nat → String
  | 0, k => statuses k
  | fuel + 1, k =>
    if k * interval > timeout then statuses k
    else
      let s := statuses k
      if isTerminal s then s
      else wait_for_run_go statuses timeout interval fuel (k + 1)

/-- `wait_for_run(run_id, timeout, poll_interval)` of the Telegram/X scripts,
returning the status of the run data handed back to the caller.  The fuel
`timeout / interval + 2` covers every iteration the loop can perform when
`interval > 0`. -/
def wait_for_run (statuses : Nat → String) (timeout interval : Nat) : String :=
  wait_for_run_go statuses timeout interval (timeout / interval + 2) 0

end ApifyClient

namespace ApifyLinkedin

/-- The polling loop of the LinkedIn script's `wait_for_run`, with explicit
fuel.  The sleep interval is the constant 5; the loop condition is
`while time.time() - start < timeout`, and when it exhausts the function
returns the empty dict `{}` — modelled as `Option.none` (no status at all).
Source:
```
while time.time() - start < timeout:
    data = resp.json().get('data', {})
    status = data.get('status', '')
    if status in ('SUCCEEDED','FAILED','ABORTED','TIMED-OUT'): return data
    time.sleep(5)
print(f'  Timeout after ...'); return \x7b\x7d
```
-/
def wait_for_run_go (statuses : Nat → String) (timeout : Nat) :
    Nat → Nat → Option String
  | 0, _ => Option.none
  | fuel + 1, k =>
    if k * 5 < timeout then
      let s := statuses k
      if ApifyClient.isTerminal s then some s
      else wait_for_run_go statuses timeout fuel (k + 1)
    else Option.none

/-- `wait_for_run(run_id, timeout)` of `apify_linkedin_scraper.py`: `some status`
when a terminal status is observed before the deadline, `Option.none` (the
empty dict) on timeout. -/
def wait_for_run (statuses : Nat → String) (timeout : Nat) : Option String :=
  wait_for_run_go statuses timeout (timeout / 5 + 2) 0

end ApifyLinkedin

/-- Helper for `needle in hay` on lists (Python substring containment). -/
def listContainsSub [BEq α] (needle : List α) : List α → Bool
  | [] => needle.isEmpty
  | x :: xs => needle.isPrefixOf (x :: xs) || listContainsSub needle xs

/-- Python `needle in hay` for strings (substring containment). -/
def strContains (hay needle : String) : Bool := listContainsSub needle.data hay.data

/-- Python `o or d` for optional ints (argparse values): `None` and `0` are
falsy, so both fall through to the default. -/
def intOr (o : Option Int) (d : Int) : Int :=
  match o with
  | Option.none => d
  | some n => if n == 0 then d else n

/-!
## `apify_telegram_scraper.py`
-/

namespace ApifyTelegram

/-- `normalize_channel`: strip whitespace, extract the username from a t.me
URL, drop a leading `@`. -/
def normalize_channel (channel : String) : String :=
  let channel := strTrim channel
  let channel :=
    if strContains channel "t.me/" then
      (strSplitOn ((strSplitOn ((strSplitOn channel "t.me/").getLastD "") "/").headD "") "?").headD ""
    else channel
  if strStartsWith channel "@" then strDrop channel 1 else channel

/-- `build_actor_input`: turn a logical request into the actor-specific
payload.  The `media` branch uses only `channels`/`maxPosts`/`daysRange`
(clamped) and ignores `posts_from`/`posts_to`; the `posts` branch uses the post
range with Python-`or` defaults; the `messages` branch indexes `normalized[0]`
and therefore raises `IndexError` on an empty channel list (the only failure
path — there is no `UnsupportedCombination` anywhere in the script).  Unknown
actor types yield the empty dict. -/
def build_actor_input (channels : List String) (actor_type : String)
    (max_posts : Int) (days : Int) (posts_from posts_to : Option Int)
    (download_media : Bool) : Except String PyDict :=
  let normalized := channels.map normalize_channel
  if actor_type == "media" then
    Except.ok
      [("channels", PyVal.str (strIntercalate ", " normalized)),
       ("maxPosts", PyVal.int (min max_posts 200)),
       ("daysRange", PyVal.int (min days 30)),
       ("includeText", PyVal.bool true),
       ("mediaOnly", PyVal.bool false),
       ("downloadMedia", PyVal.bool download_media)]
  else if actor_type == "posts" then
    Except.ok
      [("channels", PyVal.list (normalized.map PyVal.str)),
       ("postsFrom", PyVal.int (intOr posts_from 1)),
       ("postsTo", PyVal.int (intOr posts_to max_posts)),
       ("proxy", PyVal.dict
         [("useApifyProxy", PyVal.bool true),
          ("apifyProxyGroups", PyVal.list [PyVal.str "RESIDENTIAL"])])]
  else if actor_type == "messages" then
    match normalized with
    | [] => Except.error "IndexError: list index out of range"
    | c :: _ =>
      Except.ok
        [("telegram_url", PyVal.str ("https://t.me/" ++ c)),
         ("max_results", PyVal.int max_posts),
         ("download_medias", PyVal.str "text"),
         ("start_date", PyVal.str (toString days ++ " days"))]
  else Except.ok []

/-- The normalized record shape produced by `process_results` for one raw item.
`media_urls` is `Option.none` when the `'media_urls'` key is not added to the
record dict; `raw` keeps the original raw item (the script stores its JSON
serialization `json.dumps(item)`, which is information-equivalent). -/
structure TRecord where
  id : PyVal
  channel : PyVal
  date : PyVal
  text : PyVal
  views : PyVal
  forwards : PyVal
  replies : PyVal
  url : PyVal
  has_media : PyVal
  media_urls : Option String
  raw : PyDict

/-- The media-URL extraction loop of `process_results`:
```
for key in ('mediaUrl', 'imageUrl', 'media_urls', 'photo', 'images'):
    val = item.get(key)
    if val:
        if isinstance(val, list): media_urls.extend(str(v) for v in val)
        else: media_urls.append(str(val))
```
-/
def mediaUrlsOf (item : PyDict) : List String :=
  ["mediaUrl", "imageUrl", "media_urls", "photo", "images"].foldl
    (fun acc k =>
      let val := pyGet item k
      if pyTruthy val then
        match val with
        | PyVal.list vs => acc ++ vs.map pyStr
        | v => acc ++ [pyStr v]
      else acc) []

/-- Normalization of a single raw item in `process_results`, with the source's
ordered `or`-fallback chains.  Left-associated exactly as Python evaluates
`a or b or c`. -/
def process_item (item : PyDict) : TRecord :=
  let media_urls := mediaUrlsOf item
  { id := pyOr (pyOr (pyOr (pyGet item "id") (pyGet item "messageId"))
        (pyGet item "postId")) (pyGet item "post_id")
    channel := pyOr (pyOr (pyOr (pyOr (pyGet item "channel")
        (pyGet item "channelUsername")) (pyGet item "channelName"))
        (pyGet item "source")) (pyGet item "profileName")
    date := pyOr (pyOr (pyOr (pyOr (pyGet item "date") (pyGet item "timestamp"))
        (pyGet item "datetime")) (pyGet item "postDate")) (pyGet item "created_at")
    text := pyOr (pyOr (pyOr (pyOr (pyGet item "text") (pyGet item "message"))
        (pyGet item "content")) (pyGet item "postText")) (PyVal.str "")
    views := pyOr (pyOr (pyOr (pyGet item "views") (pyGet item "viewCount"))
        (pyGet item "view_count")) (PyVal.int 0)
    forwards := pyOr (pyOr (pyOr (pyGet item "forwards") (pyGet item "forwardCount"))
        (pyGet item "share_count")) (PyVal.int 0)
    replies := pyOr (pyOr (pyOr (pyGet item "replies") (pyGet item "replyCount"))
        (pyGet item "comment_count")) (PyVal.int 0)
    url := pyOr (pyOr (pyOr (pyGet item "url") (pyGet item "postUrl"))
        (pyGet item "link")) (pyGet item "post_url")
    has_media := PyVal.bool (pyTruthy (pyOr (pyOr (pyOr (pyOr (pyOr
        (pyGet item "media") (pyGet item "photo")) (pyGet item "images"))
        (pyGet item "mediaUrl")) (pyGet item "imageUrl")) (pyGet item "media_urls")))
    media_urls :=
      if media_urls.isEmpty then Option.none
      else some (strIntercalate " | " media_urls)
    raw := item }

/-- `process_results`: normalize every raw item; the loop appends one record
per item unconditionally. -/
def process_results (items : List PyDict) : List TRecord := items.map process_item

end ApifyTelegram

/-!
## `apify_x_scraper.py`

The X normalizer can actually raise on adversarially-typed *present* values
(`author.get(...)` when `author` is a truthy non-dict, `text.startswith(...)`
when the text value is truthy but not a string, `' | '.join(...)` over non-str
media URLs), so its per-item normalization is embedded as an `Except`-valued
function; `Except.error` marks exactly the inputs on which the Python raises.
-/

/-- Python `' | '.join(vs)`: raises `TypeError` when an element is not a str. -/
def pyJoin (sep : String) (vs : List PyVal) : Except String String :=
  if vs.all (fun v => match v with | PyVal.str _ => true | _ => false) then
    Except.ok (strIntercalate sep (vs.map pyStr))
  else Except.error "TypeError: sequence item: expected str instance"

namespace ApifyX

/-- `normalize_handle`: strip URL prefixes and a leading `@`. -/
def normalize_handle (handle : String) : String :=
  let handle := strTrim handle
  let prefixes := ["https://x.com/", "https://twitter.com/", "http://x.com/",
                   "http://twitter.com/", "x.com/", "twitter.com/"]
  let handle :=
    match prefixes.find? (fun p => strStartsWith (strToLower handle) (strToLower p)) with
    | some p =>
      (strSplitOn ((strSplitOn (strDrop handle p.length) "/").headD "") "?").headD ""
    | Option.none => handle
  if strStartsWith handle "@" then strDrop handle 1 else handle

/-- `author = item.get('author', \x7b\x7d) or \x7b\x7d`, followed by the first
`author.get(...)` call: a truthy non-dict value raises `AttributeError`. -/
def authorDict (item : PyDict) : Except String PyDict :=
  match pyOr (pyGetD item "author" (PyVal.dict [])) (PyVal.dict []) with
  | PyVal.dict kvs => Except.ok kvs
  | _ => Except.error "AttributeError: get"

/-- `item.get('tweet_id') or item.get('id') or item.get('id_str') or ''`. -/
def tweetIdOf (item : PyDict) : PyVal :=
  pyOr (pyOr (pyOr (pyGet item "tweet_id") (pyGet item "id"))
    (pyGet item "id_str")) (PyVal.str "")

/-- `author.get('screen_name') or author.get('userName') or
item.get('twitterHandle') or item.get('handle') or source_handle or ''`. -/
def handleOf (author item : PyDict) (source_handle : String) : PyVal :=
  pyOr (pyOr (pyOr (pyOr (pyOr (pyGet author "screen_name")
    (pyGet author "userName")) (pyGet item "twitterHandle"))
    (pyGet item "handle")) (PyVal.str source_handle)) (PyVal.str "")

/-- `item.get('created_at') or item.get('createdAt') or item.get('date') or
item.get('timestamp') or ''`. -/
def dateOf (item : PyDict) : PyVal :=
  pyOr (pyOr (pyOr (pyOr (pyGet item "created_at") (pyGet item "createdAt"))
    (pyGet item "date")) (pyGet item "timestamp")) (PyVal.str "")

/-- `item.get('text') or item.get('full_text') or item.get('tweetText') or
item.get('content') or ''`. -/
def textOf (item : PyDict) : PyVal :=
  pyOr (pyOr (pyOr (pyOr (pyGet item "text") (pyGet item "full_text"))
    (pyGet item "tweetText")) (pyGet item "content")) (PyVal.str "")

/-- `item.get('favorites') or item.get('likeCount') or
item.get('favorite_count') or item.get('likes') or 0`. -/
def likesOf (item : PyDict) : PyVal :=
  pyOr (pyOr (pyOr (pyOr (pyGet item "favorites") (pyGet item "likeCount"))
    (pyGet item "favorite_count")) (pyGet item "likes")) (PyVal.int 0)

/-- `item.get('retweets') or item.get('retweetCount') or
item.get('retweet_count') or 0`. -/
def retweetsOf (item : PyDict) : PyVal :=
  pyOr (pyOr (pyOr (pyGet item "retweets") (pyGet item "retweetCount"))
    (pyGet item "retweet_count")) (PyVal.int 0)

/-- `item.get('replies') or item.get('replyCount') or
item.get('reply_count') or 0`. -/
def repliesOf (item : PyDict) : PyVal :=
  pyOr (pyOr (pyOr (pyGet item "replies") (pyGet item "replyCount"))
    (pyGet item "reply_count")) (PyVal.int 0)

/-- `item.get('views') or item.get('viewCount') or 0`. -/
def viewsOf (item : PyDict) : PyVal :=
  pyOr (pyOr (pyGet item "views") (pyGet item "viewCount")) (PyVal.int 0)

/-- `item.get('bookmarks') or item.get('bookmarkCount') or 0`. -/
def bookmarksOf (item : PyDict) : PyVal :=
  pyOr (pyOr (pyGet item "bookmarks") (pyGet item "bookmarkCount")) (PyVal.int 0)

/-- `item.get('quotes') or item.get('quoteCount') or 0`. -/
def quotesOf (item : PyDict) : PyVal :=
  pyOr (pyOr (pyGet item "quotes") (pyGet item "quoteCount")) (PyVal.int 0)

/-- The tweet-URL synthesis:
```
record['url'] = ''
...
if tid and handle:
    record['url'] = f'https://x.com/\x7bhandle\x7d/status/\x7btid\x7d'
```
-/
def urlOf (tid handle : PyVal) : String :=
  if pyTruthy tid && pyTruthy handle then
    "https://x.com/" ++ pyStr handle ++ "/status/" ++ pyStr tid
  else ""

/-- `record['is_retweet'] = text.startswith('RT @') if text else False`:
a truthy non-str text value raises `AttributeError`. -/
def isRetweetOf (text : PyVal) : Except String Bool :=
  if pyTruthy text then
    match text with
    | PyVal.str s => Except.ok (strStartsWith s "RT @")
    | _ => Except.error "AttributeError: startswith"
  else Except.ok false

/-- One entry of the media loops: `if isinstance(m, dict):
u = m.get('media_url_https') or m.get('url'); if u: media_urls.append(u)`. -/
def xMediaEntry (acc : List PyVal) (m : PyVal) : List PyVal :=
  match m with
  | PyVal.dict md =>
    let u := pyOr (pyGet md "media_url_https") (pyGet md "url")
    if pyTruthy u then acc ++ [u] else acc
  | _ => acc

/-- The media extraction of `process_results`:
`media = item.get('media', \x7b\x7d) or \x7b\x7d`, then either the dict shape
(keys `photo`/`video`/`animated_gif`, each a list of entries) or the flat list
shape; any other shape contributes nothing. -/
def xMediaUrls (item : PyDict) : List PyVal :=
  match pyOr (pyGetD item "media" (PyVal.dict [])) (PyVal.dict []) with
  | PyVal.dict md =>
    ["photo", "video", "animated_gif"].foldl
      (fun acc mtype =>
        match pyGetD md mtype (PyVal.list []) with
        | PyVal.list entries => entries.foldl xMediaEntry acc
        | _ => acc) []
  | PyVal.list ms => ms.foldl xMediaEntry []
  | _ => []

/-- The normalized tweet record of `process_results`.  `media_urls` is
`Option.none` when the `'media_urls'` key is not added; `raw` keeps the raw
item (the script stores `json.dumps(item)`). -/
structure XRecord where
  tweet_id : PyVal
  handle : PyVal
  display_name : PyVal
  date : PyVal
  text : PyVal
  url : String
  likes : PyVal
  retweets : PyVal
  replies : PyVal
  views : PyVal
  bookmarks : PyVal
  quotes : PyVal
  lang : PyVal
  is_retweet : Bool
  has_media : Bool
  media_urls : Option String
  raw : PyDict

/-- `' | '.join(media_urls)` behind `if media_urls:`: the key is absent when
the collected list is empty, else the join runs (and may raise). -/
def mediaUrlsJoined (murls : List PyVal) : Except String (Option String) :=
  if murls.isEmpty then Except.ok Option.none
  else
    match pyJoin " | " murls with
    | Except.error e => Except.error e
    | Except.ok j => Except.ok (some j)

/-- Normalization of one non-skipped raw tweet item; an `Except.error` marks
the inputs on which the Python raises (exception propagation is explicit
match-passing). -/
def process_item (item : PyDict) (source_handle : String) : Except String XRecord :=
  match authorDict item with
  | Except.error e => Except.error e
  | Except.ok author =>
  let tid := tweetIdOf item
  let handle := handleOf author item source_handle
  let text := textOf item
  match isRetweetOf text with
  | Except.error e => Except.error e
  | Except.ok is_rt =>
  let murls := xMediaUrls item
  match mediaUrlsJoined murls with
  | Except.error e => Except.error e
  | Except.ok media_urls =>
  Except.ok
    { tweet_id := tid
      handle := handle
      display_name := pyOr (pyGet author "name") (PyVal.str "")
      date := dateOf item
      text := text
      url := urlOf tid handle
      likes := likesOf item
      retweets := retweetsOf item
      replies := repliesOf item
      views := viewsOf item
      bookmarks := bookmarksOf item
      quotes := quotesOf item
      lang := pyOr (pyGet item "lang") (PyVal.str "")
      is_retweet := is_rt
      has_media := !murls.isEmpty
      media_urls := media_urls
      raw := item }

/-- The skip guard at the top of the loop:
`if item.get('noResults') or item.get('demo'): continue`. -/
def xSkip (item : PyDict) : Bool :=
  pyTruthy (pyGet item "noResults") || pyTruthy (pyGet item "demo")

/-- `process_results(items, source_handle)`: normalize the items in order,
skipping empty/demo/error items. -/
def process_results (items : List PyDict) (source_handle : String) :
    Except String (List XRecord) :=
  match items with
  | [] => Except.ok []
  | item :: rest =>
    if xSkip item then process_results rest source_handle
    else
      match process_item item source_handle with
      | Except.error e => Except.error e
      | Except.ok r =>
        match process_results rest source_handle with
        | Except.error e => Except.error e
        | Except.ok rs => Except.ok (r :: rs)

end ApifyX

/-!
## `unified_scraper.py`
-/

namespace Unified

/-- `class ScraperBackend(Enum)`. -/
inductive ScraperBackend where
  | auto
  | apify
  | telethon
deriving DecidableEq

/-- `@dataclass ScrapeConfig`.  `retry_delay: float` is omitted (floating
point, consulted by no embedded operation). -/
structure ScrapeConfig where
  channels : List String
  limit : Int
  backend : ScraperBackend
  output_dir : String
  output_format : String
  include_media : Bool
  include_comments : Bool
  date_from : Option String
  date_to : Option String
  filter_keywords : List String
  filter_min_views : Int
  retry_count : Int
  resume_from : Option String

/-- The process environment consulted by the two backends. -/
structure Env where
  apify_api_token : Option String
  telegram_api_id : Option String
  telegram_api_hash : Option String

/-- Truthiness of an `os.getenv` result: `None` and `''` are falsy. -/
def envTruthy : Option String → Bool
  | Option.none => false
  | some s => s != ""

/-- `TelethonScraper.is_available`: `bool(self.api_id and self.api_hash)`. -/
def telethon_is_available (e : Env) : Bool :=
  envTruthy e.telegram_api_id && envTruthy e.telegram_api_hash

/-- `ApifyScraper.is_available`: `bool(self.token)`. -/
def apify_is_available (e : Env) : Bool := envTruthy e.apify_api_token

/-- `UnifiedScraper.select_backend`: honor a pinned backend and raise
`ValueError` when its credentials are absent; under AUTO prefer Apify, then
Telethon, else raise. -/
def select_backend (e : Env) (config : ScrapeConfig) : Except String String :=
  if config.backend == ScraperBackend.telethon then
    if !telethon_is_available e then
      Except.error "Telethon not available. Set TELEGRAM_API_ID and TELEGRAM_API_HASH"
    else Except.ok "telethon"
  else if config.backend == ScraperBackend.apify then
    if !apify_is_available e then
      Except.error "Apify not available. Set APIFY_API_TOKEN"
    else Except.ok "apify"
  else
    if apify_is_available e then Except.ok "apify"
    else if telethon_is_available e then Except.ok "telethon"
    else Except.error "No scraping backend available. Set either APIFY_API_TOKEN, or TELEGRAM_API_ID and TELEGRAM_API_HASH"

/-- `(m.get('text') or '').lower()`: the value reaching `.lower()` is either a
string or a truthy non-str, which raises `AttributeError`. -/
def pyLower (v : PyVal) : Except String String :=
  match v with
  | PyVal.str s => Except.ok (strToLower s)
  | _ => Except.error "AttributeError: lower"

/-- `(m.get('views') or 0) >= n`: Python compares ints (and bools, which are
ints) with ints; any other operand type raises `TypeError`. -/
def pyGeInt (v : PyVal) (n : Int) : Except String Bool :=
  match v with
  | PyVal.int m => Except.ok (decide (m ≥ n))
  | PyVal.bool b => Except.ok (decide ((if b then (1 : Int) else 0) ≥ n))
  | _ => Except.error "TypeError: comparison not supported"

/-- A Python list comprehension `[m for m in ms if p(m)]` whose predicate may
raise: evaluated left to right, the first raise aborts. -/
def filterExcept (p : α → Except String Bool) : List α → Except String (List α)
  | [] => Except.ok []
  | x :: xs => do
    let b ← p x
    let rest ← filterExcept p xs
    Except.ok (if b then x :: rest else rest)

/-- `UnifiedScraper._apply_filters`: keyword filter (case-insensitive substring
OR-match on `text`, skipped when the keyword list is empty) composed with the
min-views filter (skipped when `filter_min_views` is not positive). -/
def _apply_filters (messages : List PyDict) (config : ScrapeConfig) :
    Except String (List PyDict) := do
  let filtered := messages
  let filtered ←
    if !config.filter_keywords.isEmpty then
      let keywords := config.filter_keywords.map strToLower
      filterExcept (fun m => do
        let t ← pyLower (pyOr (pyGet m "text") (PyVal.str ""))
        Except.ok (keywords.any (fun kw => strContains t kw))) filtered
    else pure filtered
  let filtered ←
    if config.filter_min_views > 0 then
      filterExcept (fun m => pyGeInt (pyOr (pyGet m "views") (PyVal.int 0))
        config.filter_min_views) filtered
    else pure filtered
  Except.ok filtered

/-!
### Session lifecycle of the Telethon path

The session-client path of `UnifiedScraper.scrape` and the standalone
`scrape_telegram.py` differ exactly in their exception handling, so the session
state is made explicit: `SessionM α` threads a `Bool` (is the Telethon client
connected) and an exception channel.  `scrape_channel` outcomes are opaque
inputs: each channel's iteration either yields messages or raises.
-/

/-- State-and-exceptions monad for the Telethon session: the `Bool` state is
"client connected". -/
def SessionM (α : Type) := Bool → Except String α × Bool

/-- `await client.start()` / `await self.telethon.connect()`. -/
def sConnect : SessionM Unit := fun _ => (Except.ok (), true)

/-- `await client.disconnect()`. -/
def sDisconnect : SessionM Unit := fun _ => (Except.ok (), false)

/-- Sequencing: an exception short-circuits the continuation. -/
def sBind (m : SessionM α) (f : α → SessionM β) : SessionM β := fun s =>
  match m s with
  | (Except.ok a, s') => f a s'
  | (Except.error e, s') => (Except.error e, s')

/-- A pure step. -/
def sPure (a : α) : SessionM α := fun s => (Except.ok a, s)

/-- The outcome of iterating one channel on the session (opaque remote
behaviour: either a message list or a raised exception). -/
def sChannelIter (outcome : Except String (List PyDict)) : SessionM (List PyDict) :=
  fun s => (outcome, s)

/-- Python `try: body finally: fin`: `fin` runs on both exit paths and its
result state survives; the body's exception is then re-raised. -/
def sTryFinally (body : SessionM α) (fin : SessionM Unit) : SessionM α := fun s =>
  match body s with
  | (r, s') =>
    match fin s' with
    | (Except.ok _, s'') => (r, s'')
    | (Except.error e, s'') => (Except.error e, s'')

/-- The per-channel loop in `UnifiedScraper.scrape`:
`for channel in config.channels: all_messages.extend(await scrape_channel(...))`. -/
def telethonLoop (outcomes : List (Except String (List PyDict)))
    (acc : List PyDict) : SessionM (List PyDict) :=
  match outcomes with
  | [] => sPure acc
  | o :: rest => sBind (sChannelIter o) (fun msgs => telethonLoop rest (acc ++ msgs))

/-- The Telethon branch of `UnifiedScraper.scrape`:
```
await self.telethon.connect()
try:
    for channel in config.channels: ... scrape_channel ...
finally:
    await self.telethon.disconnect()
```
-/
def unified_scrape_telethon (outcomes : List (Except String (List PyDict))) :
    SessionM (List PyDict) :=
  sBind sConnect (fun _ => sTryFinally (telethonLoop outcomes []) sDisconnect)

end Unified

/-!
## `scrape_telegram.py`
-/

namespace ScrapeTelegram

/-- The body of `main` in the standalone Telethon script: connect, iterate the
channel (collecting messages), write the CSV, then disconnect — with no
`try`/`finally`, so a raise during iteration skips the disconnect:
```
await client.start()
msgs = []
async for message in client.iter_messages(channel, limit=limit): msgs.append(...)
df.to_csv(out, ...)
await client.disconnect()
```
-/
def main (iterOutcome : Except String (List PyDict)) :
    Unified.SessionM (List PyDict) :=
  Unified.sBind Unified.sConnect (fun _ =>
    Unified.sBind (Unified.sChannelIter iterOutcome) (fun msgs =>
      Unified.sBind Unified.sDisconnect (fun _ => Unified.sPure msgs)))

end ScrapeTelegram

/-- The spec's declared selection rule for a fallback chain, written from the
spec's words ("evaluates an ordered list of candidate keys ... taking the
first present non-empty value"): the first truthy candidate in priority
order; when no candidate is truthy, the chain's final operand (the declared
default — or, for chains that end in a plain `get`, the last candidate key's
value).  The claim theorems compare the source's `or`-chains against this
rule. -/
def firstTruthy (cands : List PyVal) (dflt : PyVal) : PyVal :=
  match cands with
  | [] => dflt
  | v :: rest => if pyTruthy v then v else firstTruthy rest dflt

/-!
# Theorems

Helper lemmas first, then one theorem per claim (with witnesses and
counterexamples where required).
-/

/-- Full characterization of the pagination loop when the remote service
faithfully serves slices of a dataset: all items are returned and the number
of page requests is `length / limit + 1` requests past the last full page. -/
theorem get_dataset_items_go_spec {α : Type} (ds : List α) (limit : Nat)
    (hl : 0 < limit) :
    ∀ (fuel offset : Nat) (items : List α) (reqs : Nat),
      (ds.drop offset).length < fuel * limit →
      ApifyClient.get_dataset_items_go ds limit fuel offset items reqs
        = (items ++ ds.drop offset, reqs + (ds.drop offset).length / limit + 1) := by
  intro fuel
  induction fuel with
  | zero => intro offset items reqs h; simp at h
  | succ fuel ih =>
    intro offset items reqs h
    simp only [ApifyClient.get_dataset_items_go, ApifyClient.fetchPage]
    rcases Nat.lt_or_ge (ds.drop offset).length limit with hlt | hge
    · have htake : (ds.drop offset).take limit = ds.drop offset :=
        List.take_of_length_le (le_of_lt hlt)
      rw [htake]
      have h0 : (ds.drop offset).length / limit = 0 := Nat.div_eq_of_lt hlt
      by_cases hemp : (ds.drop offset).isEmpty
      · have hnil : ds.drop offset = [] := by
          simpa [List.isEmpty_iff] using hemp
        simp [hemp, hnil]
      · rw [if_neg (by simp [hemp]), if_pos hlt, h0]
    · have htk_len : ((ds.drop offset).take limit).length = limit := by
        rw [List.length_take]
        exact Nat.min_eq_left hge
      have hempF : ((ds.drop offset).take limit).isEmpty = false := by
        cases hE : (ds.drop offset).take limit with
        | nil => rw [hE] at htk_len; simp at htk_len; omega
        | cons a l => rfl
      have hnlt : ¬ ((ds.drop offset).take limit).length < limit := by
        rw [htk_len]; omega
      rw [if_neg (by simp [hempF]), if_neg hnlt]
      have hdd : ds.drop (offset + limit) = (ds.drop offset).drop limit := by
        rw [List.drop_drop, Nat.add_comm]
      have hlen : ((ds.drop offset).drop limit).length
          = (ds.drop offset).length - limit := by rw [List.length_drop]
      have hfuel : (ds.drop (offset + limit)).length < fuel * limit := by
        rw [hdd, hlen]
        have h' := h
        rw [Nat.succ_mul] at h'
        omega
      rw [ih (offset + limit) (items ++ (ds.drop offset).take limit) (reqs + 1) hfuel]
      have e1 : items ++ (ds.drop offset).take limit ++ ds.drop (offset + limit)
          = items ++ ds.drop offset := by
        rw [hdd, List.append_assoc, List.take_append_drop]
      have e2 : reqs + 1 + (ds.drop (offset + limit)).length / limit + 1
          = reqs + (ds.drop offset).length / limit + 1 := by
        rw [hdd, hlen]
        have hdiv : (ds.drop offset).length / limit
            = ((ds.drop offset).length - limit) / limit + 1 :=
          Nat.div_eq_sub_div hl hge
        omega
      rw [e1, e2]

/-- Claim C1 (amended): for a dataset of exactly `N` raw records served in
slices of the implementation page size `P = 1000`, `get_dataset_items` returns
exactly the `N` records and makes `N / P + 1` page requests — that is,
`ceil(N/P)` requests when `P` does not divide `N`, but `ceil(N/P) + 1`
requests (one extra short/empty page, on which it terminates) when `N` is an
exact multiple of `P`, including `N = 0`. -/
theorem C1_pagination (ds : List PyDict) :
    ApifyClient.get_dataset_items ds = (ds, ds.length / 1000 + 1) := by
  have h := get_dataset_items_go_spec ds 1000 (by decide) (ds.length + 2) 0 [] 0
    (by simp; omega)
  simpa [ApifyClient.get_dataset_items] using h

set_option maxRecDepth 10000 in
/-- Claim C1, counterexample to the stated request count: on a dataset of
exactly `N = 1000` items (an exact multiple of the page size `P = 1000`),
`get_dataset_items` makes 2 page requests, while `ceil(N/P) = 1`. -/
theorem C1_pagination_counterexample :
    (ApifyClient.get_dataset_items (List.replicate 1000 ([] : PyDict))).2 = 2
      ∧ (1000 + 1000 - 1) / 1000 = 1 := by
  exact ⟨rfl, rfl⟩

/-- The Telegram/X polling loop, when the run never reaches a terminal status,
runs until elapsed time first exceeds the timeout and then performs one final
status fetch, whose (actual) run data it returns. -/
theorem wait_for_run_go_nonterminal (statuses : Nat → String) (t i : Nat)
    (hi : 0 < i) (hnt : ∀ k, ApifyClient.isTerminal (statuses k) = false) :
    ∀ (fuel k : Nat), t / i + 1 < k + fuel → k ≤ t / i + 1 →
      ApifyClient.wait_for_run_go statuses t i fuel k = statuses (t / i + 1) := by
  intro fuel
  induction fuel with
  | zero => intro k h1 h2; omega
  | succ fuel ih =>
    intro k h1 h2
    simp only [ApifyClient.wait_for_run_go]
    by_cases hk : k = t / i + 1
    · subst hk
      have hgt : (t / i + 1) * i > t := by
        have hdm := Nat.div_add_mod t i
        have hm := Nat.mod_lt t hi
        calc t = i * (t / i) + t % i := hdm.symm
          _ < i * (t / i) + i := by omega
          _ = (t / i + 1) * i := by ring
      rw [if_pos hgt]
    · have hkle : k ≤ t / i := by omega
      have hle : k * i ≤ t :=
        calc k * i ≤ (t / i) * i := Nat.mul_le_mul_right i hkle
          _ ≤ t := Nat.div_mul_le_self t i
      rw [if_neg (by omega)]
      simp only [hnt k, Bool.false_eq_true, if_false]
      exact ih (k + 1) (by omega) (by omega)

/-- The LinkedIn polling loop, when the run never reaches a terminal status,
always falls through to the timeout path and returns the empty dict. -/
theorem wait_for_run_li_nonterminal (statuses : Nat → String) (t : Nat)
    (hnt : ∀ k, ApifyClient.isTerminal (statuses k) = false) :
    ∀ (fuel k : Nat),
      ApifyLinkedin.wait_for_run_go statuses t fuel k = Option.none := by
  intro fuel
  induction fuel with
  | zero => intro k; rfl
  | succ fuel ih =>
    intro k
    simp only [ApifyLinkedin.wait_for_run_go]
    by_cases hlt : k * 5 < t
    · simp [hlt, hnt k, ih]
    · simp [hlt]

/-- Claim C2 (amended): when the poll budget elapses on a job that never
reaches a terminal status, `wait_for_run` stops polling without failing, but
it does NOT return a synthetic `TimedOut` status: the Telegram/X variant
performs one final status fetch and hands the caller the run's actual —
possibly non-terminal — data, and the LinkedIn variant returns an empty dict
carrying no status at all. -/
theorem C2_poll_timeout (statuses : Nat → String) (timeout interval : Nat)
    (hi : 0 < interval)
    (hnt : ∀ k, ApifyClient.isTerminal (statuses k) = false) :
    ApifyClient.wait_for_run statuses timeout interval
        = statuses (timeout / interval + 1)
      ∧ ApifyLinkedin.wait_for_run statuses timeout = Option.none := by
  constructor
  · exact wait_for_run_go_nonterminal statuses timeout interval hi hnt
      (timeout / interval + 2) 0
      (by generalize timeout / interval = q; omega)
      (Nat.zero_le _)
  · exact wait_for_run_li_nonterminal statuses timeout hnt (timeout / 5 + 2) 0

/-- Witness for C2 at a concrete input: a job stuck in `RUNNING` with
`timeout = 10`, `poll_interval = 5`. -/
theorem C2_poll_timeout_witness :
    ApifyClient.wait_for_run (fun _ => "RUNNING") 10 5 = "RUNNING"
      ∧ ApifyLinkedin.wait_for_run (fun _ => "RUNNING") 10 = Option.none := by
  have h := C2_poll_timeout (fun _ => "RUNNING") 10 5 (by decide) (fun _ => rfl)
  simpa using h

/-- Claim C2, counterexample to the claim as stated: with the script's default
`timeout = 300` and a run that stays `RUNNING`, `wait_for_run` returns the
actual non-terminal status `RUNNING` — not a synthetic timed-out status. -/
theorem C2_poll_timeout_counterexample :
    ApifyClient.wait_for_run (fun _ => "RUNNING") 300 5 = "RUNNING"
      ∧ ApifyClient.isTerminal "RUNNING" = false
      ∧ "RUNNING" ≠ "TIMED-OUT" := by
  refine ⟨rfl, rfl, by decide⟩

/-- Claim C5 (amended): for a request carrying a post-number range
(`posts_from`/`posts_to`) against the 'media' actor — which only supports a
day-count lookback — `build_actor_input` does NOT fail: it silently drops the
incompatible fields, returning exactly the spec it would return had no post
range been given, whose keys are only the day-lookback family. -/
theorem C5_spec_builder (channels : List String) (max_posts days : Int)
    (posts_from posts_to : Option Int) (download_media : Bool) :
    ∃ d, ApifyTelegram.build_actor_input channels "media" max_posts days
          posts_from posts_to download_media = Except.ok d
      ∧ ApifyTelegram.build_actor_input channels "media" max_posts days
          Option.none Option.none download_media = Except.ok d
      ∧ d.map Prod.fst
          = ["channels", "maxPosts", "daysRange", "includeText", "mediaOnly",
             "downloadMedia"] := by
  exact ⟨_, rfl, rfl, rfl⟩

/-- Claim C5, counterexample to the claim as stated: a concrete post-range
request against the 'media' actor returns an ordinary spec (no
`UnsupportedCombination`, no failure of any kind), with `postsFrom`/`postsTo`
nowhere in it. -/
theorem C5_spec_builder_counterexample :
    ApifyTelegram.build_actor_input ["DGPIndia"] "media" 50 7 (some 1) (some 100)
        false
      = Except.ok
          [("channels", PyVal.str "DGPIndia"), ("maxPosts", PyVal.int 50),
           ("daysRange", PyVal.int 7), ("includeText", PyVal.bool true),
           ("mediaOnly", PyVal.bool false), ("downloadMedia", PyVal.bool false)]
      := by
  rfl

/-- Claim C6: backend selection.  A pinned backend whose credentials are
absent raises immediately; under AUTO the orchestrator picks the Apify
job-API backend when its token is present, else the Telethon session backend
when its credentials are present (no `NoBackendAvailable` raised), and raises
only when neither credential set is present. -/
theorem C6_backend_selection (e : Unified.Env) (config : Unified.ScrapeConfig) :
    (config.backend = Unified.ScraperBackend.telethon →
        Unified.telethon_is_available e = false →
        ∃ msg, Unified.select_backend e config = Except.error msg)
  ∧ (config.backend = Unified.ScraperBackend.apify →
        Unified.apify_is_available e = false →
        ∃ msg, Unified.select_backend e config = Except.error msg)
  ∧ (config.backend = Unified.ScraperBackend.auto →
        Unified.apify_is_available e = true →
        Unified.select_backend e config = Except.ok "apify")
  ∧ (config.backend = Unified.ScraperBackend.auto →
        Unified.apify_is_available e = false →
        Unified.telethon_is_available e = true →
        Unified.select_backend e config = Except.ok "telethon")
  ∧ (config.backend = Unified.ScraperBackend.auto →
        Unified.apify_is_available e = false →
        Unified.telethon_is_available e = false →
        ∃ msg, Unified.select_backend e config = Except.error msg) := by
  refine ⟨?_, ?_, ?_, ?_, ?_⟩
  · intro hb hc
    refine ⟨"Telethon not available. Set TELEGRAM_API_ID and TELEGRAM_API_HASH", ?_⟩
    simp [Unified.select_backend, hb, hc]
  · intro hb hc
    refine ⟨"Apify not available. Set APIFY_API_TOKEN", ?_⟩
    simp [Unified.select_backend, hb, hc]
  · intro hb hc
    simp [Unified.select_backend, hb, hc]
  · intro hb hc1 hc2
    simp [Unified.select_backend, hb, hc1, hc2]
  · intro hb hc1 hc2
    refine ⟨"No scraping backend available. Set either APIFY_API_TOKEN, or TELEGRAM_API_ID and TELEGRAM_API_HASH", ?_⟩
    simp [Unified.select_backend, hb, hc1, hc2]

/-- Witness for C6 at the spec's scenario: only session credentials present,
no job-API token, AUTO selection — the session backend is chosen and nothing
is raised. -/
theorem C6_backend_selection_witness :
    Unified.select_backend
      { apify_api_token := Option.none, telegram_api_id := some "12345",
        telegram_api_hash := some "0123456789abcdef" }
      { channels := ["durov"], limit := 1000,
        backend := Unified.ScraperBackend.auto, output_dir := "./output",
        output_format := "csv", include_media := false,
        include_comments := false, date_from := Option.none,
        date_to := Option.none, filter_keywords := [], filter_min_views := 0,
        retry_count := 3, resume_from := Option.none }
      = Except.ok "telethon" :=
  (C6_backend_selection _ _).2.2.2.1 rfl (by decide) (by decide)

/-- Claim C7: `_apply_filters` with an empty keyword list and
`filter_min_views = 0` is the identity transform — the same records come back,
in the same order, with nothing dropped (and no error raised). -/
theorem C7_filter_identity (messages : List PyDict)
    (config : Unified.ScrapeConfig) (hk : config.filter_keywords = [])
    (hv : config.filter_min_views = 0) :
    Unified._apply_filters messages config = Except.ok messages := by
  simp [Unified._apply_filters, hk, hv]

/-- Witness for C7 at a concrete record list and configuration. -/
theorem C7_filter_identity_witness :
    Unified._apply_filters
      [[("text", PyVal.str "hello"), ("views", PyVal.int 3)],
       [("text", PyVal.none)]]
      { channels := ["c"], limit := 1000,
        backend := Unified.ScraperBackend.auto, output_dir := "./output",
        output_format := "csv", include_media := false,
        include_comments := false, date_from := Option.none,
        date_to := Option.none, filter_keywords := [], filter_min_views := 0,
        retry_count := 3, resume_from := Option.none }
      = Except.ok
          [[("text", PyVal.str "hello"), ("views", PyVal.int 3)],
           [("text", PyVal.none)]] :=
  C7_filter_identity _ _ rfl rfl

/-- Claim C8 (amended): the Telethon path of `UnifiedScraper.scrape` releases
the session on every exit path — including an exception raised while iterating
any channel — via its `try`/`finally`; but the standalone `scrape_telegram.py`
script, which the session-release requirement also covers, disconnects only on
the success path: an exception during message iteration leaves the session
connected. -/
theorem C8_session_release
    (outcomes : List (Except String (List PyDict))) (s0 : Bool)
    (msgs : List PyDict) (e : String) :
    (Unified.unified_scrape_telethon outcomes s0).2 = false
  ∧ (ScrapeTelegram.main (Except.ok msgs) s0).2 = false
  ∧ (ScrapeTelegram.main (Except.error e) s0).2 = true := by
  refine ⟨?_, rfl, rfl⟩
  simp only [Unified.unified_scrape_telethon, Unified.sBind, Unified.sConnect,
    Unified.sTryFinally, Unified.sDisconnect]

/-- Claim C8, counterexample to the claim as stated: on the session-client
path of `scrape_telegram.py`, a rate-limit exception raised during channel
iteration propagates past the `await client.disconnect()` line, leaving the
session connected (`true`) on that exit path. -/
theorem C8_session_release_counterexample :
    (ScrapeTelegram.main (Except.error "FloodWaitError") false).2 = true := rfl

/-- Python `or` keeps a truthy left operand. -/
theorem pyOr_of_truthy {a : PyVal} (h : pyTruthy a = true) (b : PyVal) :
    pyOr a b = a := by simp [pyOr, h]

/-- Python `or` falls through a falsy left operand. -/
theorem pyOr_of_falsy {a : PyVal} (h : pyTruthy a = false) (b : PyVal) :
    pyOr a b = b := by simp [pyOr, h]

/-- `None or b` is `b`. -/
theorem pyOr_none_left (b : PyVal) : pyOr PyVal.none b = b := rfl

/-- `s or ''` is `s` for every string value `s` (truthy or not). -/
theorem pyOr_str_empty (s : String) :
    pyOr (PyVal.str s) (PyVal.str "") = PyVal.str s := by
  by_cases h : s = ""
  · subst h; rfl
  · exact pyOr_of_truthy (by simp [pyTruthy, h]) _

/-- Appending one more fallback to a resolved chain: the accumulated value so
far becomes one more candidate in front of the new final operand. -/
theorem pyOr_firstTruthy (l : List PyVal) (d g : PyVal) :
    pyOr (firstTruthy l d) g = firstTruthy (l ++ [d]) g := by
  induction l with
  | nil => rfl
  | cons v rest ih =>
    by_cases hv : pyTruthy v
    · simp [firstTruthy, hv, pyOr]
    · simp [firstTruthy, hv, ih]

/-- A two-operand `a or b` selects the first truthy candidate among `[a]`,
else `b`. -/
theorem pyOr_chain2 (g1 g2 : PyVal) : pyOr g1 g2 = firstTruthy [g1] g2 := rfl

/-- A left-associated three-operand `or`-chain selects the first truthy
candidate, else the final operand. -/
theorem pyOr_chain3 (g1 g2 g3 : PyVal) :
    pyOr (pyOr g1 g2) g3 = firstTruthy [g1, g2] g3 := by
  rw [pyOr_chain2 g1 g2, pyOr_firstTruthy]
  rfl

/-- A left-associated four-operand `or`-chain selects the first truthy
candidate, else the final operand. -/
theorem pyOr_chain4 (g1 g2 g3 g4 : PyVal) :
    pyOr (pyOr (pyOr g1 g2) g3) g4 = firstTruthy [g1, g2, g3] g4 := by
  rw [pyOr_chain3 g1 g2 g3, pyOr_firstTruthy]
  rfl

/-- A left-associated five-operand `or`-chain selects the first truthy
candidate, else the final operand. -/
theorem pyOr_chain5 (g1 g2 g3 g4 g5 : PyVal) :
    pyOr (pyOr (pyOr (pyOr g1 g2) g3) g4) g5
      = firstTruthy [g1, g2, g3, g4] g5 := by
  rw [pyOr_chain4 g1 g2 g3 g4, pyOr_firstTruthy]
  rfl

/-- A left-associated six-operand `or`-chain selects the first truthy
candidate, else the final operand. -/
theorem pyOr_chain6 (g1 g2 g3 g4 g5 g6 : PyVal) :
    pyOr (pyOr (pyOr (pyOr (pyOr g1 g2) g3) g4) g5) g6
      = firstTruthy [g1, g2, g3, g4, g5] g6 := by
  rw [pyOr_chain5 g1 g2 g3 g4 g5, pyOr_firstTruthy]
  rfl

/-- Claim C4 (amended): for every canonical field of both normalizers, the
field's fallback chain deterministically selects the value of the first key
in the provider's declared priority order *whose value is truthy*; a present
falsy value (e.g. `0` or `''`) at any position is skipped in favour of the
next truthy candidate, and when no candidate is truthy the chain's final
operand is taken (the declared default, or the last candidate key's value for
the chains that end in a plain `get`).  Stated as a complete characterization:
every Telegram field, every X field chain, and — for a successfully
normalized X item — every field of the emitted record equals `firstTruthy`
of its declared candidate list. -/
theorem C4_priority_order (item author : PyDict) (source_handle : String) :
    ((ApifyTelegram.process_item item).id
        = firstTruthy [pyGet item "id", pyGet item "messageId",
            pyGet item "postId"] (pyGet item "post_id")
      ∧ (ApifyTelegram.process_item item).channel
        = firstTruthy [pyGet item "channel", pyGet item "channelUsername",
            pyGet item "channelName", pyGet item "source"]
            (pyGet item "profileName")
      ∧ (ApifyTelegram.process_item item).date
        = firstTruthy [pyGet item "date", pyGet item "timestamp",
            pyGet item "datetime", pyGet item "postDate"]
            (pyGet item "created_at")
      ∧ (ApifyTelegram.process_item item).text
        = firstTruthy [pyGet item "text", pyGet item "message",
            pyGet item "content", pyGet item "postText"] (PyVal.str "")
      ∧ (ApifyTelegram.process_item item).views
        = firstTruthy [pyGet item "views", pyGet item "viewCount",
            pyGet item "view_count"] (PyVal.int 0)
      ∧ (ApifyTelegram.process_item item).forwards
        = firstTruthy [pyGet item "forwards", pyGet item "forwardCount",
            pyGet item "share_count"] (PyVal.int 0)
      ∧ (ApifyTelegram.process_item item).replies
        = firstTruthy [pyGet item "replies", pyGet item "replyCount",
            pyGet item "comment_count"] (PyVal.int 0)
      ∧ (ApifyTelegram.process_item item).url
        = firstTruthy [pyGet item "url", pyGet item "postUrl",
            pyGet item "link"] (pyGet item "post_url")
      ∧ (ApifyTelegram.process_item item).has_media
        = PyVal.bool (pyTruthy (firstTruthy [pyGet item "media",
            pyGet item "photo", pyGet item "images", pyGet item "mediaUrl",
            pyGet item "imageUrl"] (pyGet item "media_urls"))))
  ∧ (ApifyX.tweetIdOf item
        = firstTruthy [pyGet item "tweet_id", pyGet item "id",
            pyGet item "id_str"] (PyVal.str "")
      ∧ ApifyX.handleOf author item source_handle
        = firstTruthy [pyGet author "screen_name", pyGet author "userName",
            pyGet item "twitterHandle", pyGet item "handle",
            PyVal.str source_handle] (PyVal.str "")
      ∧ ApifyX.dateOf item
        = firstTruthy [pyGet item "created_at", pyGet item "createdAt",
            pyGet item "date", pyGet item "timestamp"] (PyVal.str "")
      ∧ ApifyX.textOf item
        = firstTruthy [pyGet item "text", pyGet item "full_text",
            pyGet item "tweetText", pyGet item "content"] (PyVal.str "")
      ∧ ApifyX.likesOf item
        = firstTruthy [pyGet item "favorites", pyGet item "likeCount",
            pyGet item "favorite_count", pyGet item "likes"] (PyVal.int 0)
      ∧ ApifyX.retweetsOf item
        = firstTruthy [pyGet item "retweets", pyGet item "retweetCount",
            pyGet item "retweet_count"] (PyVal.int 0)
      ∧ ApifyX.repliesOf item
        = firstTruthy [pyGet item "replies", pyGet item "replyCount",
            pyGet item "reply_count"] (PyVal.int 0)
      ∧ ApifyX.viewsOf item
        = firstTruthy [pyGet item "views", pyGet item "viewCount"] (PyVal.int 0)
      ∧ ApifyX.bookmarksOf item
        = firstTruthy [pyGet item "bookmarks", pyGet item "bookmarkCount"]
            (PyVal.int 0)
      ∧ ApifyX.quotesOf item
        = firstTruthy [pyGet item "quotes", pyGet item "quoteCount"]
            (PyVal.int 0))
  ∧ (∀ r : ApifyX.XRecord,
      ApifyX.process_item item source_handle = Except.ok r →
        r.tweet_id = ApifyX.tweetIdOf item
      ∧ (∀ a : PyDict, ApifyX.authorDict item = Except.ok a →
          r.handle = ApifyX.handleOf a item source_handle
          ∧ r.display_name = firstTruthy [pyGet a "name"] (PyVal.str ""))
      ∧ r.date = ApifyX.dateOf item
      ∧ r.text = ApifyX.textOf item
      ∧ r.likes = ApifyX.likesOf item
      ∧ r.retweets = ApifyX.retweetsOf item
      ∧ r.replies = ApifyX.repliesOf item
      ∧ r.views = ApifyX.viewsOf item
      ∧ r.bookmarks = ApifyX.bookmarksOf item
      ∧ r.quotes = ApifyX.quotesOf item
      ∧ r.lang = firstTruthy [pyGet item "lang"] (PyVal.str "")) := by
  refine ⟨⟨?_, ?_, ?_, ?_, ?_, ?_, ?_, ?_, ?_⟩,
    ⟨?_, ?_, ?_, ?_, ?_, ?_, ?_, ?_, ?_, ?_⟩, ?_⟩
  · exact pyOr_chain4 _ _ _ _
  · exact pyOr_chain5 _ _ _ _ _
  · exact pyOr_chain5 _ _ _ _ _
  · exact pyOr_chain5 _ _ _ _ _
  · exact pyOr_chain4 _ _ _ _
  · exact pyOr_chain4 _ _ _ _
  · exact pyOr_chain4 _ _ _ _
  · exact pyOr_chain4 _ _ _ _
  · exact congrArg (fun v => PyVal.bool (pyTruthy v)) (pyOr_chain6 _ _ _ _ _ _)
  · exact pyOr_chain4 _ _ _ _
  · exact pyOr_chain6 _ _ _ _ _ _
  · exact pyOr_chain5 _ _ _ _ _
  · exact pyOr_chain5 _ _ _ _ _
  · exact pyOr_chain5 _ _ _ _ _
  · exact pyOr_chain4 _ _ _ _
  · exact pyOr_chain4 _ _ _ _
  · exact pyOr_chain3 _ _ _
  · exact pyOr_chain3 _ _ _
  · exact pyOr_chain3 _ _ _
  · intro r h
    rw [ApifyX.process_item] at h
    cases hA : ApifyX.authorDict item with
    | error e => rw [hA] at h; exact absurd h (by simp)
    | ok a0 =>
      rw [hA] at h
      dsimp only at h
      cases hT : ApifyX.isRetweetOf (ApifyX.textOf item) with
      | error e => rw [hT] at h; exact absurd h (by simp)
      | ok is_rt =>
        rw [hT] at h
        dsimp only at h
        cases hJ : ApifyX.mediaUrlsJoined (ApifyX.xMediaUrls item) with
        | error e => rw [hJ] at h; exact absurd h (by simp)
        | ok media_urls =>
          rw [hJ] at h
          simp only [Except.ok.injEq] at h
          subst h
          refine ⟨rfl, ?_, rfl, rfl, rfl, rfl, rfl, rfl, rfl, rfl,
            pyOr_chain2 _ _⟩
          intro a ha
          simp only [Except.ok.injEq] at ha
          subst ha
          exact ⟨rfl, pyOr_chain2 _ _⟩

/-- Witness for C4 at a concrete raw tweet-like record whose first-priority
`views` key holds the falsy `0` (skipped for `viewCount = 5`), whose `likes`
chain resolves at the first candidate `favorites = 3`, and whose normalized
X record is tied back to the chains through a successful `process_item` run
(with the empty author dict). -/
theorem C4_priority_order_witness :
    (ApifyTelegram.process_item
        [("views", PyVal.int 0), ("viewCount", PyVal.int 5),
         ("favorites", PyVal.int 3), ("id", PyVal.int 9),
         ("handle", PyVal.str "bob")]).views = PyVal.int 5
  ∧ ApifyX.likesOf
        [("views", PyVal.int 0), ("viewCount", PyVal.int 5),
         ("favorites", PyVal.int 3), ("id", PyVal.int 9),
         ("handle", PyVal.str "bob")] = PyVal.int 3
  ∧ ApifyX.handleOf [("screen_name", PyVal.str "alice")]
        [("views", PyVal.int 0), ("viewCount", PyVal.int 5),
         ("favorites", PyVal.int 3), ("id", PyVal.int 9),
         ("handle", PyVal.str "bob")] "src" = PyVal.str "alice"
  ∧ ({ tweet_id := PyVal.int 9, handle := PyVal.str "bob",
       display_name := PyVal.str "", date := PyVal.str "",
       text := PyVal.str "", url := "https://x.com/bob/status/9",
       likes := PyVal.int 3, retweets := PyVal.int 0, replies := PyVal.int 0,
       views := PyVal.int 5, bookmarks := PyVal.int 0, quotes := PyVal.int 0,
       lang := PyVal.str "", is_retweet := false, has_media := false,
       media_urls := Option.none,
       raw := [("views", PyVal.int 0), ("viewCount", PyVal.int 5),
               ("favorites", PyVal.int 3), ("id", PyVal.int 9),
               ("handle", PyVal.str "bob")] } : ApifyX.XRecord).tweet_id
      = ApifyX.tweetIdOf
        [("views", PyVal.int 0), ("viewCount", PyVal.int 5),
         ("favorites", PyVal.int 3), ("id", PyVal.int 9),
         ("handle", PyVal.str "bob")]
  ∧ ({ tweet_id := PyVal.int 9, handle := PyVal.str "bob",
       display_name := PyVal.str "", date := PyVal.str "",
       text := PyVal.str "", url := "https://x.com/bob/status/9",
       likes := PyVal.int 3, retweets := PyVal.int 0, replies := PyVal.int 0,
       views := PyVal.int 5, bookmarks := PyVal.int 0, quotes := PyVal.int 0,
       lang := PyVal.str "", is_retweet := false, has_media := false,
       media_urls := Option.none,
       raw := [("views", PyVal.int 0), ("viewCount", PyVal.int 5),
               ("favorites", PyVal.int 3), ("id", PyVal.int 9),
               ("handle", PyVal.str "bob")] } : ApifyX.XRecord).handle
      = ApifyX.handleOf []
        [("views", PyVal.int 0), ("viewCount", PyVal.int 5),
         ("favorites", PyVal.int 3), ("id", PyVal.int 9),
         ("handle", PyVal.str "bob")] "src" := by
  have h := C4_priority_order
    [("views", PyVal.int 0), ("viewCount", PyVal.int 5),
     ("favorites", PyVal.int 3), ("id", PyVal.int 9),
     ("handle", PyVal.str "bob")]
    [("screen_name", PyVal.str "alice")] "src"
  refine ⟨h.1.2.2.2.2.1.trans (by rfl), h.2.1.2.2.2.2.1.trans (by rfl),
    h.2.1.2.1.trans (by rfl), (h.2.2 _ (by rfl)).1,
    ((h.2.2 _ (by rfl)).2.1 [] (by rfl)).1⟩

/-- Claim C4, counterexample to the claim as stated: with both `views = 0` and
`viewCount = 5` present, the first-priority key `views` holds a present falsy
value, and the normalizer deterministically selects `5` from the
second-priority key — not the first key's `0`. -/
theorem C4_priority_order_counterexample :
    pyGet [("views", PyVal.int 0), ("viewCount", PyVal.int 5)] "views"
        = PyVal.int 0
  ∧ pyGet [("views", PyVal.int 0), ("viewCount", PyVal.int 5)] "viewCount"
        = PyVal.int 5
  ∧ (ApifyTelegram.process_item
        [("views", PyVal.int 0), ("viewCount", PyVal.int 5)]).views = PyVal.int 5
  ∧ PyVal.int 5 ≠ PyVal.int 0 := by
  refine ⟨rfl, rfl, rfl, ?_⟩
  intro hx
  simp at hx

/-- The X normalizer emits exactly one record per non-skipped raw item. -/
theorem xProcessCount (source_handle : String) :
    ∀ (items : List PyDict) (recs : List ApifyX.XRecord),
      ApifyX.process_results items source_handle = Except.ok recs →
      recs.length = items.countP (fun i => !ApifyX.xSkip i) := by
  intro items
  induction items with
  | nil =>
    intro recs h
    simp [ApifyX.process_results] at h
    simp [← h]
  | cons item rest ih =>
    intro recs h
    by_cases hs : ApifyX.xSkip item
    · rw [ApifyX.process_results, if_pos hs] at h
      simp [List.countP_cons, hs, ih recs h]
    · rw [ApifyX.process_results, if_neg hs] at h
      cases hp : ApifyX.process_item item source_handle with
      | error e => rw [hp] at h; exact absurd h (by simp)
      | ok r =>
        rw [hp] at h
        cases hr : ApifyX.process_results rest source_handle with
        | error e => rw [hr] at h; exact absurd h (by simp)
        | ok rs =>
          rw [hr] at h
          simp only [Except.ok.injEq] at h
          subst h
          simp [List.countP_cons, hs, ih rs hr]

/-- Claim C9 (amended): the Telegram normalizer is one-to-one (exactly one
output record per raw item), but the X normalizer is one-to-one only on items
that do not trip its skip guard: items whose `noResults` or `demo` field is
truthy are silently dropped, so its output length is the count of non-skipped
items. -/
theorem C9_one_to_one (items : List PyDict) :
    (ApifyTelegram.process_results items).length = items.length
  ∧ ∀ (source_handle : String) (recs : List ApifyX.XRecord),
      ApifyX.process_results items source_handle = Except.ok recs →
      recs.length = items.countP (fun i => !ApifyX.xSkip i) := by
  constructor
  · simp [ApifyTelegram.process_results]
  · intro sh recs h
    exact xProcessCount sh items recs h

/-- Witness for C9: a two-item fetch (one normal item, one demo item) yields
two Telegram records but a single X record. -/
theorem C9_one_to_one_witness :
    (ApifyTelegram.process_results [[], [("demo", PyVal.bool true)]]).length
        = ([[], [("demo", PyVal.bool true)]] : List PyDict).length
  ∧ ([{ tweet_id := PyVal.str "", handle := PyVal.str "",
        display_name := PyVal.str "", date := PyVal.str "",
        text := PyVal.str "", url := "", likes := PyVal.int 0,
        retweets := PyVal.int 0, replies := PyVal.int 0, views := PyVal.int 0,
        bookmarks := PyVal.int 0, quotes := PyVal.int 0, lang := PyVal.str "",
        is_retweet := false, has_media := false, media_urls := Option.none,
        raw := [] }] : List ApifyX.XRecord).length
      = ([[], [("demo", PyVal.bool true)]] : List PyDict).countP
          (fun i => !ApifyX.xSkip i) :=
  ⟨(C9_one_to_one _).1, (C9_one_to_one _).2 "" _ rfl⟩

/-- Claim C9, counterexample to the claim as stated: a one-item fetched list
whose item carries a truthy `demo` field produces zero X records — the item is
skipped, so normalization is not one-to-one. -/
theorem C9_one_to_one_counterexample :
    ApifyX.process_results [[("demo", PyVal.bool true)]] "" = Except.ok []
  ∧ ([[("demo", PyVal.bool true)]] : List PyDict).length = 1 :=
  ⟨rfl, rfl⟩

/-- The synthesized URL string is never empty. -/
theorem url_template_ne_empty (h t : String) :
    ("https://x.com/" ++ h ++ "/status/" ++ t) ≠ "" := by
  intro he
  have hlen : ("https://x.com/" ++ h ++ "/status/" ++ t).length = 0 := by
    rw [he]; rfl
  have h14 : ("https://x.com/" : String).length = 14 := rfl
  have h8 : ("/status/" : String).length = 8 := rfl
  rw [String.length_append, String.length_append, String.length_append,
    h14, h8] at hlen
  omega

/-- Full characterization of the URL synthesis. -/
theorem urlOf_spec (tid hd : PyVal) :
    (ApifyX.urlOf tid hd ≠ "" ↔ (pyTruthy tid = true ∧ pyTruthy hd = true))
  ∧ (pyTruthy tid = true → pyTruthy hd = true →
      ApifyX.urlOf tid hd
        = "https://x.com/" ++ pyStr hd ++ "/status/" ++ pyStr tid) := by
  constructor
  · constructor
    · intro hne
      by_cases h1 : pyTruthy tid <;> by_cases h2 : pyTruthy hd <;>
        simp [ApifyX.urlOf, h1, h2] at hne ⊢
    · rintro ⟨h1, h2⟩
      simp only [ApifyX.urlOf, h1, h2, Bool.and_self, if_true]
      exact url_template_ne_empty _ _
  · intro h1 h2
    simp [ApifyX.urlOf, h1, h2]

/-- Claim C10: in the X normalizer, the record's `url` is non-empty exactly
when both the derived `tweet_id` and `handle` are non-empty (truthy), in which
case it is the template `https://x.com/<handle>/status/<tweet_id>`; when
either part is missing the `url` stays the empty string — never a partial or
null URL. -/
theorem C10_url_synthesis (item : PyDict) (source_handle : String)
    (r : ApifyX.XRecord)
    (h : ApifyX.process_item item source_handle = Except.ok r) :
    (r.url ≠ "" ↔ (pyTruthy r.tweet_id = true ∧ pyTruthy r.handle = true))
  ∧ (pyTruthy r.tweet_id = true → pyTruthy r.handle = true →
      r.url = "https://x.com/" ++ pyStr r.handle ++ "/status/" ++ pyStr r.tweet_id) := by
  rw [ApifyX.process_item] at h
  cases hA : ApifyX.authorDict item with
  | error e => rw [hA] at h; exact absurd h (by simp)
  | ok author =>
    rw [hA] at h
    dsimp only at h
    cases hT : ApifyX.isRetweetOf (ApifyX.textOf item) with
    | error e => rw [hT] at h; exact absurd h (by simp)
    | ok is_rt =>
      rw [hT] at h
      dsimp only at h
      cases hJ : ApifyX.mediaUrlsJoined (ApifyX.xMediaUrls item) with
      | error e => rw [hJ] at h; exact absurd h (by simp)
      | ok media_urls =>
        rw [hJ] at h
        simp only [Except.ok.injEq] at h
        subst h
        exact urlOf_spec _ _

/-- Witness for C10 at a concrete raw tweet with a numeric id and a present
handle key. -/
theorem C10_url_synthesis_witness :
    (("https://x.com/bob/status/123" : String) ≠ ""
        ↔ (pyTruthy (PyVal.int 123) = true ∧ pyTruthy (PyVal.str "bob") = true))
  ∧ (pyTruthy (PyVal.int 123) = true → pyTruthy (PyVal.str "bob") = true →
      ("https://x.com/bob/status/123" : String)
        = "https://x.com/" ++ pyStr (PyVal.str "bob") ++ "/status/"
            ++ pyStr (PyVal.int 123)) :=
  C10_url_synthesis [("id", PyVal.int 123), ("handle", PyVal.str "bob")] ""
    { tweet_id := PyVal.int 123, handle := PyVal.str "bob",
      display_name := PyVal.str "", date := PyVal.str "", text := PyVal.str "",
      url := "https://x.com/bob/status/123", likes := PyVal.int 0,
      retweets := PyVal.int 0, replies := PyVal.int 0, views := PyVal.int 0,
      bookmarks := PyVal.int 0, quotes := PyVal.int 0, lang := PyVal.str "",
      is_retweet := false, has_media := false, media_urls := Option.none,
      raw := [("id", PyVal.int 123), ("handle", PyVal.str "bob")] }
    rfl

/-- `d.get(k)` on the empty dict is `None`. -/
theorem pyGet_nil (k : String) : pyGet [] k = PyVal.none := rfl

/-- A key whose `get` yields `None` makes `item.get(k, \x7b\x7d) or \x7b\x7d`
the empty dict. -/
theorem pyOrD_dict_of_absent (item : PyDict) (k : String)
    (h : pyGet item k = PyVal.none) :
    pyOr (pyGetD item k (PyVal.dict [])) (PyVal.dict []) = PyVal.dict [] := by
  rw [pyGet] at h
  cases hl : List.lookup k item with
  | none => rw [pyGetD, hl]; rfl
  | some v =>
    rw [hl] at h
    simp at h
    subst h
    rw [pyGetD, hl]
    rfl

/-- With no `author` key, the author sub-dict is empty (and nothing raises). -/
theorem authorDict_of_absent (item : PyDict)
    (h : pyGet item "author" = PyVal.none) :
    ApifyX.authorDict item = Except.ok [] := by
  rw [ApifyX.authorDict, pyOrD_dict_of_absent item _ h]

/-- With no `media` key, no media URLs are collected. -/
theorem xMediaUrls_of_absent (item : PyDict)
    (h : pyGet item "media" = PyVal.none) :
    ApifyX.xMediaUrls item = [] := by
  rw [ApifyX.xMediaUrls, pyOrD_dict_of_absent item _ h]
  rfl

/-- Claim C3 (amended): on a raw record in which every candidate key of every
canonical field is absent, neither normalizer raises, and every field of the X
record takes its declared `''`/`0`/`False` default — but the claim's "never a
missing, undefined, or null value" fails for the Telegram normalizer, whose
`id`, `channel`, `date` and `url` or-chains have no default and therefore
yield Python `None`; and in both normalizers the `media_urls` field is omitted
from the record entirely (no empty-list default). -/
theorem C3_missing_defaults (item : PyDict) (source_handle : String)
    (h : ∀ k, k ∈ ["id", "messageId", "postId", "post_id",
        "channel", "channelUsername", "channelName", "source", "profileName",
        "date", "timestamp", "datetime", "postDate", "created_at",
        "text", "message", "content", "postText",
        "views", "viewCount", "view_count",
        "forwards", "forwardCount", "share_count",
        "replies", "replyCount", "comment_count",
        "url", "postUrl", "link", "post_url",
        "media", "photo", "images", "mediaUrl", "imageUrl", "media_urls",
        "author", "tweet_id", "id_str", "twitterHandle", "handle",
        "createdAt", "full_text", "tweetText",
        "favorites", "likeCount", "favorite_count", "likes",
        "retweets", "retweetCount", "retweet_count", "reply_count",
        "bookmarks", "bookmarkCount", "quotes", "quoteCount", "lang"] →
      pyGet item k = PyVal.none) :
    ApifyTelegram.process_item item =
      { id := PyVal.none, channel := PyVal.none, date := PyVal.none,
        text := PyVal.str "", views := PyVal.int 0, forwards := PyVal.int 0,
        replies := PyVal.int 0, url := PyVal.none,
        has_media := PyVal.bool false, media_urls := Option.none, raw := item }
  ∧ ApifyX.process_item item source_handle =
      Except.ok
        { tweet_id := PyVal.str "", handle := PyVal.str source_handle,
          display_name := PyVal.str "", date := PyVal.str "",
          text := PyVal.str "", url := "", likes := PyVal.int 0,
          retweets := PyVal.int 0, replies := PyVal.int 0,
          views := PyVal.int 0, bookmarks := PyVal.int 0,
          quotes := PyVal.int 0, lang := PyVal.str "", is_retweet := false,
          has_media := false, media_urls := Option.none, raw := item } := by
  constructor
  · simp [ApifyTelegram.process_item, ApifyTelegram.mediaUrlsOf, h,
      pyOr_none_left, pyTruthy]
  · have hauthor := authorDict_of_absent item (h "author" (by decide))
    have hmedia := xMediaUrls_of_absent item (h "media" (by decide))
    have htext : ApifyX.textOf item = PyVal.str "" := by
      simp [ApifyX.textOf, h, pyOr_none_left]
    have hrt : ApifyX.isRetweetOf (ApifyX.textOf item) = Except.ok false := by
      rw [htext]; rfl
    have hmj : ApifyX.mediaUrlsJoined (ApifyX.xMediaUrls item)
        = Except.ok Option.none := by rw [hmedia]; rfl
    rw [ApifyX.process_item, hauthor]
    dsimp only
    rw [hrt]
    dsimp only
    rw [hmj]
    simp only [Except.ok.injEq]
    simp [ApifyX.tweetIdOf, ApifyX.handleOf, ApifyX.dateOf, htext,
      ApifyX.likesOf, ApifyX.retweetsOf, ApifyX.repliesOf, ApifyX.viewsOf,
      ApifyX.bookmarksOf, ApifyX.quotesOf, ApifyX.urlOf, h, pyOr_none_left,
      pyOr_str_empty, pyGet_nil, pyTruthy, hmedia]

/-- Witness for C3 at the empty raw record with `source_handle = "abc"`. -/
theorem C3_missing_defaults_witness :
    ApifyTelegram.process_item [] =
      { id := PyVal.none, channel := PyVal.none, date := PyVal.none,
        text := PyVal.str "", views := PyVal.int 0, forwards := PyVal.int 0,
        replies := PyVal.int 0, url := PyVal.none,
        has_media := PyVal.bool false, media_urls := Option.none, raw := [] }
  ∧ ApifyX.process_item [] "abc" =
      Except.ok
        { tweet_id := PyVal.str "", handle := PyVal.str "abc",
          display_name := PyVal.str "", date := PyVal.str "",
          text := PyVal.str "", url := "", likes := PyVal.int 0,
          retweets := PyVal.int 0, replies := PyVal.int 0,
          views := PyVal.int 0, bookmarks := PyVal.int 0,
          quotes := PyVal.int 0, lang := PyVal.str "", is_retweet := false,
          has_media := false, media_urls := Option.none, raw := [] } :=
  C3_missing_defaults [] "abc" (fun _ _ => rfl)

/-- Claim C3, counterexample to the claim as stated: on the raw record with
no keys at all, the Telegram normalizer's `id` field is `None` — a null value,
not the declared empty/zero default — and the `media_urls` field is missing
from the record rather than defaulting to an empty list. -/
theorem C3_missing_defaults_counterexample :
    (ApifyTelegram.process_item []).id = PyVal.none
  ∧ (ApifyTelegram.process_item []).media_urls = Option.none
  ∧ PyVal.none ≠ PyVal.str ""
  ∧ PyVal.none ≠ PyVal.int 0 :=
  ⟨rfl, rfl, fun hx => PyVal.noConfusion hx, fun hx => PyVal.noConfusion hx⟩
